import Mathlib

/-!
Shallow embedding of the sentiment-classification decision engine and the
content-moderation scorer of the SocialVibeRustApp repository
(src/python_scripts/sentiment_analyzer.py, content_moderator.py,
enhanced_sentiment_analysis.py, custom_sentiment_analysis.py).

Scores and confidences are modelled as rationals.  The external regex engine
(Python `re`) and the external ML models (HuggingFace EmotionClassifier,
Detoxify) are out-of-scope collaborators; each request's interaction with
them is modelled by oracle parameters:
  * `search p` stands for `re.search(p, text_lower, re.IGNORECASE) is not None`;
  * `contains w` stands for `w in text_lower` (substring test);
  * `findCount p` stands for `len(re.findall(p, text_lower))`;
  * `HFOutcome` / `DetoxifyOutcome` describe one call to the emotion /
    toxicity model: unavailable handle, raised exception, or a returned value.
-/

namespace SocialVibe

/-- The canonical emotion labels of sentiment_analyzer.py: the values of its
`emotion_mapping` dict together with the labels returned by
`detect_unsupported_emotions`. -/
inductive Emotion where
  | joy
  | sad
  | angry
  | fear
  | surprise
  | disgust
  | affection
  | confused
  | neutral
deriving DecidableEq, Repr

/-- Serialized name of an emotion, as interpolated into the f-strings of
`analyze_sentiment`. -/
def Emotion.name : Emotion → String
  | .joy => "joy"
  | .sad => "sad"
  | .angry => "angry"
  | .fear => "fear"
  | .surprise => "surprise"
  | .disgust => "disgust"
  | .affection => "affection"
  | .confused => "confused"
  | .neutral => "neutral"

/-! ## Moderation Scorer (content_moderator.py) -/

/-- The dict of per-category scores returned by `Detoxify.predict`,
modelled as an association list (`float(result[key])` conversions are the
identity here). -/
abbrev ScoreMap := List (String × ℚ)

/-- Outcome of one interaction with the Detoxify model inside
`ContentModerator.moderate_content`:
`unavailable` covers `not self.detoxify_available or self.detoxify_classifier is None`,
`failed` covers `predict` raising an exception,
`ok result` is a returned score dict. -/
inductive DetoxifyOutcome where
  | unavailable
  | failed
  | ok (result : ScoreMap)

/-- The moderation response dict of content_moderator.py (the `details`
diagnostic string, which is pure number formatting, is omitted). -/
structure ModerationResult where
  is_blocked : Bool
  violation_type : Option String
  confidence : ℚ
  toxicity_tags : List String
  all_scores : ScoreMap
  moderation_system : String
deriving DecidableEq, Repr

/-- content_moderator.py line 93: categories eligible for toxicity tagging. -/
def toxicity_categories : List String :=
  ["toxicity", "severe_toxicity", "obscene", "threat", "insult"]

/-- content_moderator.py line 95: per-category tagging thresholds. -/
def toxicity_thresholds : List (String × ℚ) :=
  [("toxicity", 0.76), ("severe_toxicity", 0.6), ("obscene", 0.95),
   ("threat", 0.77), ("insult", 0.78)]

/-- `toxicity_thresholds[category]`; in the source it is only ever applied to
the five keys of the dict, so the default is never reached. -/
def threshold_for (category : String) : ℚ :=
  (List.lookup category toxicity_thresholds).getD 0

/-- The fallback response of `moderate_content` (content_moderator.py
lines 173-181), used when Detoxify is unavailable, raised, or returned an
unexpected result format. -/
def moderation_fallback : ModerationResult :=
  { is_blocked := false
    violation_type := none
    confidence := 0
    toxicity_tags := []
    all_scores := []
    moderation_system := "fallback" }

/-- `ContentModerator.moderate_content` (content_moderator.py lines 55-181).
The guard `result ≠ [] ∧ lookup.isSome` is Python's
`if result and 'identity_attack' in result`. -/
def moderate_content (call : DetoxifyOutcome) : ModerationResult :=
  match call with
  | .ok result =>
    if result ≠ [] ∧ (List.lookup "identity_attack" result).isSome then
      let all_scores := result
      let identity_attack_score := (List.lookup "identity_attack" all_scores).getD 0
      let toxicity_tags := toxicity_categories.filter fun category =>
        match List.lookup category all_scores with
        | some score => decide (threshold_for category ≤ score)
        | none => false
      if (0.8 : ℚ) ≤ identity_attack_score then
        { is_blocked := true
          violation_type := some "identity_attack"
          confidence := identity_attack_score
          toxicity_tags := toxicity_tags
          all_scores := all_scores
          moderation_system := "toxicity_combo_v1" }
      else
        { is_blocked := false
          violation_type := none
          confidence := identity_attack_score
          toxicity_tags := toxicity_tags
          all_scores := all_scores
          moderation_system := "toxicity_combo_v1" }
    else
      moderation_fallback
  | _ => moderation_fallback

/-! ## Decision Engine (sentiment_analyzer.py) -/

/-- Outcome of one interaction with the HuggingFace EmotionClassifier inside
`SentimentAnalyzer.analyze_sentiment`:
`unavailable` covers `not self.hf_available or self.hf_classifier is None`,
`failed` covers `predict` raising an exception,
`malformed` covers a falsy result or one missing the `label`/`confidence` keys,
`ok label confidence` is a well-formed prediction. -/
inductive HFOutcome where
  | unavailable
  | failed
  | malformed
  | ok (label : String) (confidence : ℚ)

/-- `hf` did not yield a usable prediction. -/
def HFOutcome.isFailure : HFOutcome → Bool
  | .ok _ _ => false
  | _ => true

/-- sentiment_analyzer.py lines 149-162: the dict mapping HuggingFace label
vocabulary onto the system's canonical emotion set. -/
def emotion_mapping : List (String × Emotion) :=
  [("joy", .joy), ("happiness", .joy), ("happy", .joy),
   ("sadness", .sad), ("sad", .sad),
   ("anger", .angry), ("angry", .angry),
   ("fear", .fear), ("surprise", .surprise), ("disgust", .disgust),
   ("love", .affection), ("neutral", .neutral)]

/-- Python's `str.lower()` (character-wise lowercasing; on the ASCII label
vocabulary the model emits, this agrees with Python exactly). -/
def py_lower (s : String) : String :=
  ⟨s.data.map Char.toLower⟩

/-- `emotion_mapping.get(hf_emotion.lower(), 'neutral')`. -/
def map_hf_emotion (hf_emotion : String) : Emotion :=
  (List.lookup (py_lower hf_emotion) emotion_mapping).getD .neutral

/-- sentiment_analyzer.py lines 224-229 (`confused_patterns`). -/
def confused_patterns : List String :=
  ["(?:^|\\W)(confused|bewildered|puzzled|perplexed|baffled)(?:\\W|$)",
   "(?:^|\\W)(don\x27?t\\s+understand|makes\\s+no\\s+sense|no\\s+sense|unclear)(?:\\W|$)",
   "(?:^|\\W)(what\\s+just\\s+happened|what\x27?s\\s+going\\s+on|no\\s+idea)(?:\\W|$)",
   "(?:^|\\W)(lost\\s+in|totally\\s+bewildered|absolutely\\s+no\\s+sense)(?:\\W|$)"]

/-- sentiment_analyzer.py lines 232-236 (`neutral_patterns`). -/
def neutral_patterns : List String :=
  ["(?:^|\\W)(calm|peaceful|serene|tranquil|relaxed|zen)(?:\\W|$)",
   "(?:^|\\W)(at\\s+peace|deep\\s+breath|quiet|still|centered)(?:\\W|$)",
   "(?:^|\\W)(meditation|mindful|balanced)(?:\\W|$)"]

/-- sentiment_analyzer.py lines 239-250 (`joy_patterns`). -/
def joy_patterns : List String :=
  ["(?:^|\\W)(excited|pumped|thrilled|exhilarated|energized|hyped)(?:\\W|$)",
   "(?:^|\\W)(can\x27?t\\s+wait|so\\s+pumped|bouncing|adrenaline|rush)(?:\\W|$)",
   "(?:^|\\W)(fired\\s+up|psyched|amped|revved\\s+up)(?:\\W|$)",
   "(?:^|\\W)(content|pleased|satisfied|glad|cheerful)(?:\\W|$)",
   "(?:^|\\W)(good\\s+mood|feeling\\s+good|nice\\s+day|pleasant)(?:\\W|$)",
   "(?:^|\\W)(smile|smiling|grinning)(?:\\W|$)(?!.*excitement|thrilled|ecstatic)",
   "(?:^|\\W)(happy|joyful|delighted|elated|ecstatic)(?:\\W|$)"]

/-- sentiment_analyzer.py lines 253-257 (`disgust_patterns`). -/
def disgust_patterns : List String :=
  ["(?:^|\\W)(disgusting|revolting|nauseating|repulsive|gross|vile)(?:\\W|$)",
   "(?:^|\\W)(makes\\s+me\\s+sick|absolutely\\s+nauseating|smell.*garbage)(?:\\W|$)",
   "(?:^|\\W)(moldy|rotten|stinks|putrid|foul|reeks)(?:\\W|$)"]

/-- sentiment_analyzer.py lines 260-289 (`angry_patterns`). -/
def angry_patterns : List String :=
  ["(?:^|\\W)(furious|livid|enraged|outraged|pissed.*off|mad|angry)(?:\\W|$)",
   "(?:^|\\W)(so.*angry|absolutely.*furious|makes.*me.*mad|driving.*me.*insane)(?:\\W|$)",
   "(?:^|\\W)(idiots|morons|assh[o0]les?|jackasses?|bastards?|scumbags?)(?:\\W|$)",
   "(?:^|\\W)(stupid.*people|worthless.*trash|piece.*of.*sh[i1]t|pathetic.*losers)(?:\\W|$)",
   "(?:^|\\W)(braindead|incompetent|worthless|pathetic.*c[u\\*]nts?)(?:\\W|$)",
   "(?:^|\\W)(f[u\\*]ck.*all|what.*the.*f[u\\*]ck|sh[i1]tty.*world|goddamn.*bastards?)(?:\\W|$)",
   "(?:^|\\W)(these.*b[i1]tches|sick.*f[u\\*]cks|disgusting.*perverts)(?:\\W|$)",
   "(?:^|\\W)(want.*to.*beat|punch.*in.*the.*face|want.*to.*kill|beat.*the.*sh[i1]t)(?:\\W|$)",
   "(?:^|\\W)(until.*they.*bleed|could.*kill.*them|rot.*in.*hell)(?:\\W|$)",
   "(?:^|\\W)(fed.*up|sick.*of|tired.*of.*dealing|absolutely.*terrible)(?:\\W|$)",
   "(?:^|\\W)(makes.*me.*furious|driving.*me.*crazy|screwing.*everything.*up)(?:\\W|$)",
   "(?:^|\\W)(bullsh[i1]t|this.*garbage|absolute.*trash|completely.*incompetent)(?:\\W|$)",
   "(?:^|\\W)(should.*disappear|need.*to.*get.*their.*sh[i1]t.*together|bunch.*of.*creepy)(?:\\W|$)",
   "(?:^|\\W)(deserve.*to.*rot|nobody.*respects.*them|complete.*jackass)(?:\\W|$)",
   "(?:^|\\W)(can\x27?t.*drive|traffic.*nightmare|stuck.*mess|incompetent.*drivers)(?:\\W|$)"]

/-- `SentimentAnalyzer.detect_unsupported_emotions` (sentiment_analyzer.py
lines 216-303): an ordered cascade over the pattern families, checked
"in order of specificity". -/
def detect_unsupported_emotions (search : String → Bool) : Option Emotion :=
  if angry_patterns.any search then some .angry
  else if disgust_patterns.any search then some .disgust
  else if joy_patterns.any search then some .joy
  else if confused_patterns.any search then some .confused
  else if neutral_patterns.any search then some .neutral
  else none

/-- sentiment_analyzer.py lines 316-321 (`obvious_sarcasm_patterns`). -/
def obvious_sarcasm_patterns : List String :=
  ["(?:^|\\W)(oh\\s+great|obviously|of\\s+course|sure\\s+thing|yeah\\s+right)(?:\\W|$)",
   "(?:^|\\W)(just\\s+perfect|just\\s+great|how\\s+wonderful|absolutely\\s+perfect)(?:\\W|$)",
   "(?:^|\\W)(living\\s+the\\s+dream|perfect\\s+timing|magical\\s+start)(?:\\W|$)",
   "(?:^|\\W)(oh\\s+sure|as\\s+if|totally|love\\s+that\\s+for\\s+me)(?:\\W|$)"]

/-- sentiment_analyzer.py lines 328-335 (`rhetorical_negative_patterns`). -/
def rhetorical_negative_patterns : List String :=
  ["i\\s+don\x27?t\\s+know\\s+what\x27?s\\s+worse",
   "what\\s+could\\s+be\\s+better\\s+than",
   "who\\s+doesn\x27?t\\s+love",
   "what\\s+more\\s+could\\s+you\\s+want",
   "how\\s+much\\s+worse\\s+can\\s+it\\s+get",
   "what\\s+else\\s+could\\s+go\\s+wrong"]

/-- sentiment_analyzer.py line 342 (`positive_words`). -/
def positive_words : List String :=
  ["great", "perfect", "wonderful", "amazing", "fantastic", "brilliant",
   "awesome", "excellent", "marvelous"]

/-- sentiment_analyzer.py line 343 (`negative_context_words`). -/
def negative_context_words : List String :=
  ["mess", "smell", "broken", "fail", "disaster", "terrible", "awful",
   "worst", "horrible", "falling apart", "chaos", "nightmare"]

/-- sentiment_analyzer.py line 353 (`oh_sure_pattern`). -/
def oh_sure_pattern : String :=
  "(?:^|\\W)oh\\s+sure.*(?:great|good|perfect|wonderful)"

/-- sentiment_analyzer.py lines 359-365 (`exaggerated_criticism_patterns`). -/
def exaggerated_criticism_patterns : List String :=
  ["it\x27?s\\s+like.*(?:optional|doesn\x27?t\\s+matter|no\\s+big\\s+deal)",
   "nobody\\s+seems\\s+to\\s+care",
   "as\\s+if.*(?:matters|cares|helps)",
   "sure.*just\\s+what\\s+i\\s+needed",
   "exactly\\s+what\\s+i\\s+wanted"]

/-- sentiment_analyzer.py lines 372-376 (`timing_sarcasm_patterns`). -/
def timing_sarcasm_patterns : List String :=
  ["just\\s+what\\s+i\\s+needed\\s+(?:right\\s+now|when|today)",
   "perfect\\s+timing",
   "couldn\x27?t\\s+have\\s+come\\s+at\\s+a\\s+(?:better|worse)\\s+time"]

/-- `SentimentAnalyzer.detect_advanced_sarcasm` (sentiment_analyzer.py
lines 305-383).  `search` is the regex oracle, `contains` the substring
test of `word in text_lower`. -/
def detect_advanced_sarcasm (search : String → Bool) (contains : String → Bool) : Bool :=
  if obvious_sarcasm_patterns.any search then true
  else if rhetorical_negative_patterns.any search then true
  else if positive_words.any contains && negative_context_words.any contains then true
  else if search oh_sure_pattern then true
  else if exaggerated_criticism_patterns.any search then true
  else if timing_sarcasm_patterns.any search then true
  else false

/-- sentiment_analyzer.py lines 112-119 (`affectionate_patterns`). -/
def affectionate_patterns : List String :=
  ["(?:^|\\W)(love|adore|cherish|treasure|devoted|caring|tender|sweet)(?:\\W|$)",
   "(?:^|\\W)(darling|sweetheart|honey|dear|beloved|babe|baby)(?:\\W|$)",
   "(?:^|\\W)(warm\\s+feelings|deep\\s+affection|heartfelt)(?:\\W|$)",
   "(?:^|\\W)(my\\s+love|my\\s+dear|my\\s+darling|my\\s+heart)(?:\\W|$)",
   "[❤️💕💖💗💓💝🥰😍💋]",
   "(?:^|\\W)(affectionate|loving|warmth|tenderness)(?:\\W|$)"]

/-- The base (pre-combo) emotion and confidence of
`SentimentAnalyzer.analyze_sentiment` (sentiment_analyzer.py lines 126-177):
initialised to `('neutral', 0.3)`; overridden by a pattern-detected
unsupported emotion at fixed confidence 0.8, else by a well-formed
HuggingFace prediction (mapped label, confidence clamped into [0.5, 0.95]);
the untouched sentinel `('neutral', 0.3)` is finally replaced by the
fallback `('neutral', 0.5)`. -/
def base_emotion (unsupported : Option Emotion) (hf : HFOutcome) : Emotion × ℚ :=
  let pair : Emotion × ℚ :=
    match unsupported with
    | some e => (e, 0.8)
    | none =>
      match hf with
      | .ok label confidence =>
        (map_hf_emotion label, min 0.95 (max 0.5 confidence))
      | _ => (Emotion.neutral, 0.3)
  if pair.1 = Emotion.neutral ∧ pair.2 = 0.3 then (Emotion.neutral, 0.5) else pair

/-- The response dict of `analyze_sentiment`.  The Python dicts omit some
keys depending on the branch taken, hence the `Option Bool` fields. -/
structure SentimentResult where
  sentiment_type : String
  confidence : ℚ
  is_sarcastic : Option Bool
  is_affectionate : Option Bool
  is_combo : Bool
  primary_emotion : Option String
  combo_type : Option String
deriving DecidableEq, Repr

/-- `SentimentAnalyzer.analyze_sentiment` (sentiment_analyzer.py
lines 91-214), with the per-request regex/substring behaviour of the text
and the HuggingFace interaction supplied as oracles. -/
def analyze_sentiment (search : String → Bool) (contains : String → Bool)
    (hf : HFOutcome) : SentimentResult :=
  let is_sarcastic := detect_advanced_sarcasm search contains
  let is_affectionate := affectionate_patterns.any search
  let unsupported := detect_unsupported_emotions search
  let (mapped_emotion, base_confidence) := base_emotion unsupported hf
  if is_sarcastic then
    { sentiment_type := "sarcastic+" ++ mapped_emotion.name
      confidence := min 0.9 (base_confidence + 0.1)
      is_sarcastic := some true
      is_affectionate := none
      is_combo := true
      primary_emotion := some mapped_emotion.name
      combo_type := some "sarcastic" }
  else if is_affectionate then
    { sentiment_type := "affectionate+" ++ mapped_emotion.name
      confidence := min 0.9 (base_confidence + 0.1)
      is_sarcastic := none
      is_affectionate := some true
      is_combo := true
      primary_emotion := some mapped_emotion.name
      combo_type := some "affectionate" }
  else
    { sentiment_type := mapped_emotion.name
      confidence := base_confidence
      is_sarcastic := some false
      is_affectionate := none
      is_combo := false
      primary_emotion := none
      combo_type := none }

/-! ## Pattern Scorer (enhanced_sentiment_analysis.py / custom_sentiment_analysis.py) -/

/-- One category's tiered regex set from the `emotion_patterns` tables;
`patterns.get('boosters', [])` is the empty list when the tier is absent. -/
structure PatternSet where
  primary : List String
  secondary : List String
  boosters : List String
deriving Repr

/-- The cumulative primary/secondary weighted match count of
`calculate_pattern_score` in enhanced_sentiment_analysis.py (primary ×1.0,
secondary ×0.6), before boosting and capping. -/
def weighted_match_score (findCount : String → Nat) (patterns : PatternSet) : ℚ :=
  (patterns.primary.map fun p => (findCount p : ℚ) * 1.0).sum
    + (patterns.secondary.map fun p => (findCount p : ℚ) * 0.6).sum

/-- `AdvancedSentimentAnalyzer.calculate_pattern_score`
(enhanced_sentiment_analysis.py lines 192-213): every booster pattern that
matches adds 0.5 to a multiplier starting at 1.0, and the boosted score is
capped at 5.0. -/
def calculate_pattern_score (findCount : String → Nat) (search : String → Bool)
    (patterns : PatternSet) : ℚ :=
  let score := (patterns.primary.map fun p => (findCount p : ℚ) * 1.0).sum
    + (patterns.secondary.map fun p => (findCount p : ℚ) * 0.6).sum
  let booster_multiplier :=
    (1.0 : ℚ) + 0.5 * ((patterns.boosters.filter search).length : ℚ)
  min (score * booster_multiplier) 5.0

/-- The cumulative primary/secondary weighted match count of
`calculate_pattern_score` in custom_sentiment_analysis.py (primary ×1.5,
secondary ×0.6). -/
def weighted_match_score_custom (findCount : String → Nat) (patterns : PatternSet) : ℚ :=
  (patterns.primary.map fun p => (findCount p : ℚ) * 1.5).sum
    + (patterns.secondary.map fun p => (findCount p : ℚ) * 0.6).sum

/-- `AdvancedSentimentAnalyzer.calculate_pattern_score`
(custom_sentiment_analysis.py lines 204-224): every booster pattern that
matches multiplies the score by 1.3, and no cap is applied. -/
def calculate_pattern_score_custom (findCount : String → Nat) (search : String → Bool)
    (patterns : PatternSet) : ℚ :=
  let score := (patterns.primary.map fun p => (findCount p : ℚ) * 1.5).sum
    + (patterns.secondary.map fun p => (findCount p : ℚ) * 0.6).sum
  score * (1.3 : ℚ) ^ (patterns.boosters.filter search).length

/-- The `happy` entry of `emotion_patterns` in enhanced_sentiment_analysis.py
(lines 20-32).  Note it has TWO booster patterns. -/
def enhanced_happy_patterns : PatternSet :=
  { primary :=
      ["\\b(happy|joy|joyful|delighted|cheerful|glad|pleased)\\b",
       "\\b(amazing|awesome|fantastic|wonderful|great|excellent|brilliant)\\b",
       "\\b(love|adore|loving|perfect|incredible|outstanding)\\b"]
    secondary :=
      ["\\b(good|nice|fine|okay|pleasant|positive|upbeat)\\b",
       "\\b(smile|smiling|grin|laugh|laughter)\\b",
       "(😊|😄|🎉|😍|🥰|😎|👍|😀|😁|😂|❤️|💖|✨)"]
    boosters :=
      ["(so|very|really|extremely|super|incredibly)",
       "!\x7b2,\x7d"] }

/-- The `sad` entry of `emotion_patterns` in custom_sentiment_analysis.py
(lines 72-83); it has no `boosters` key, so the tier is empty. -/
def custom_sad_patterns : PatternSet :=
  { primary :=
      ["\\b(sad|depressed|miserable|heartbroken|devastated)\\b",
       "\\b(crying|tears|weeping|sobbing)\\b",
       "\\b(lonely|empty|hopeless|despair)\\b"]
    secondary :=
      ["\\b(down|blue|gloomy|melancholy)\\b",
       "\\b(sorry|regret|disappointed)\\b",
       "😢|😭|💔|😔"]
    boosters := [] }

/-- Match-count oracle of the text `"so happy!!"` against
`enhanced_happy_patterns`: exactly one `findall` match, on the first primary
pattern (the word `happy`); both booster patterns match (`so` and `!!`),
which the search oracle `fun _ => true` reflects on the booster tier. -/
def so_happy_count : String → Nat := fun p =>
  if p = "\\b(happy|joy|joyful|delighted|cheerful|glad|pleased)\\b" then 1 else 0

/-- Match-count oracle of the text `"sad sad sad sad"` against
`custom_sad_patterns`: four `findall` matches of the first primary pattern
(the word `sad`), nothing else. -/
def sad_four_count : String → Nat := fun p =>
  if p = "\\b(sad|depressed|miserable|heartbroken|devastated)\\b" then 4 else 0

/-! ## Helper lemmas -/

lemma lookup_ne_nil {k : String} {m : ScoreMap} {v : ℚ}
    (h : List.lookup k m = some v) : m ≠ [] := by
  intro e
  subst e
  simp at h

/-! ## Claim theorems: moderation -/

/-- C1: for every score mapping returned by the toxicity model (one that
contains an `identity_attack` entry), `moderate_content` blocks the content
if and only if the identity_attack score is at least 0.8, a blocked result
carries violation_type `identity_attack`, and a score below 0.8 yields
`is_blocked = false` regardless of every other category's score. -/
theorem moderation_blocking_rule (result : ScoreMap) (s : ℚ)
    (h : List.lookup "identity_attack" result = some s) :
    ((moderate_content (.ok result)).is_blocked = true ↔ (0.8 : ℚ) ≤ s)
    ∧ ((0.8 : ℚ) ≤ s →
        (moderate_content (.ok result)).violation_type = some "identity_attack")
    ∧ (¬ (0.8 : ℚ) ≤ s → (moderate_content (.ok result)).is_blocked = false) := by
  have hne : result ≠ [] := lookup_ne_nil h
  simp only [moderate_content]
  rw [if_pos ⟨hne, by rw [h]; rfl⟩, h]
  simp only [Option.getD_some]
  by_cases hc : (0.8 : ℚ) ≤ s
  · rw [if_pos hc]
    exact ⟨by simp [hc], fun _ => rfl, fun hn => absurd hc hn⟩
  · rw [if_neg hc]
    exact ⟨by simp [hc], fun hcc => absurd hcc hc, fun _ => rfl⟩

/-- Witness for C1: with identity_attack exactly 0.8 the content is blocked;
with identity_attack 0.7999 it is not. -/
theorem moderation_blocking_rule_witness :
    ((moderate_content (.ok [("identity_attack", (0.8 : ℚ))])).is_blocked = true
        ↔ (0.8 : ℚ) ≤ 0.8)
    ∧ ((moderate_content (.ok [("identity_attack", (0.7999 : ℚ))])).is_blocked = true
        ↔ (0.8 : ℚ) ≤ 0.7999) :=
  ⟨(moderation_blocking_rule [("identity_attack", 0.8)] 0.8 rfl).1,
   (moderation_blocking_rule [("identity_attack", 0.7999)] 0.7999 rfl).1⟩

/-- C5: when the toxicity model is unavailable or its prediction raises,
`moderate_content` returns the fail-open fallback: not blocked, confidence
0.0, empty toxicity tags. -/
theorem moderation_fails_open (call : DetoxifyOutcome)
    (h : call = DetoxifyOutcome.unavailable ∨ call = DetoxifyOutcome.failed) :
    moderate_content call = moderation_fallback
    ∧ (moderate_content call).is_blocked = false
    ∧ (moderate_content call).confidence = 0
    ∧ (moderate_content call).toxicity_tags = [] := by
  rcases h with h | h <;> subst h <;> exact ⟨rfl, rfl, rfl, rfl⟩

/-- Witness for C5 at the unavailable-handle outcome. -/
theorem moderation_fails_open_witness :
    moderate_content DetoxifyOutcome.unavailable = moderation_fallback
    ∧ (moderate_content DetoxifyOutcome.unavailable).is_blocked = false
    ∧ (moderate_content DetoxifyOutcome.unavailable).confidence = 0
    ∧ (moderate_content DetoxifyOutcome.unavailable).toxicity_tags = [] :=
  moderation_fails_open DetoxifyOutcome.unavailable (Or.inl rfl)

/-- C6: for every score mapping returned by the toxicity model, a category
is tagged exactly when it is one of the five non-identity categories, is
present in the mapping, and its score meets its category-specific
threshold; the tags are a subset of the five categories; and the blocking
decision is a function of the identity_attack score alone, so the tags
never change it. -/
theorem toxicity_tagging_rule (result : ScoreMap) (s : ℚ)
    (h : List.lookup "identity_attack" result = some s) :
    (∀ c, c ∈ (moderate_content (.ok result)).toxicity_tags ↔
       c ∈ toxicity_categories ∧
       ∃ v, List.lookup c result = some v ∧ threshold_for c ≤ v)
    ∧ (∀ c, c ∈ (moderate_content (.ok result)).toxicity_tags →
        c ∈ toxicity_categories)
    ∧ (moderate_content (.ok result)).is_blocked = decide ((0.8 : ℚ) ≤ s) := by
  have hne : result ≠ [] := lookup_ne_nil h
  simp only [moderate_content]
  rw [if_pos ⟨hne, by rw [h]; rfl⟩, h]
  simp only [Option.getD_some]
  have hch : ∀ c, c ∈ (toxicity_categories.filter fun category =>
        match List.lookup category result with
        | some score => decide (threshold_for category ≤ score)
        | none => false) ↔
      c ∈ toxicity_categories ∧
      ∃ v, List.lookup c result = some v ∧ threshold_for c ≤ v := by
    intro c
    rw [List.mem_filter]
    constructor
    · rintro ⟨hcmem, hfc⟩
      refine ⟨hcmem, ?_⟩
      rcases hv : List.lookup c result with _ | v
      · rw [hv] at hfc
        cases hfc
      · rw [hv] at hfc
        exact ⟨v, rfl, of_decide_eq_true hfc⟩
    · rintro ⟨hcmem, v, hv, hle⟩
      refine ⟨hcmem, ?_⟩
      rw [hv]
      exact decide_eq_true hle
  by_cases hc : (0.8 : ℚ) ≤ s
  · rw [if_pos hc]
    exact ⟨hch, fun c hcm => ((hch c).mp hcm).1, by simp [hc]⟩
  · rw [if_neg hc]
    exact ⟨hch, fun c hcm => ((hch c).mp hcm).1, by simp [hc]⟩

/-- Witness for C6: the blocked/approved decision at a mapping with
identity_attack 0.9 and toxicity 0.8 depends only on the identity score. -/
theorem toxicity_tagging_rule_witness :
    (moderate_content (.ok [("identity_attack", (0.9 : ℚ)),
        ("toxicity", (0.8 : ℚ))])).is_blocked = decide ((0.8 : ℚ) ≤ 0.9) :=
  (toxicity_tagging_rule [("identity_attack", 0.9), ("toxicity", 0.8)] 0.9 rfl).2.2

/-! ## Claim theorems: decision engine -/

lemma base_emotion_of_unsupported (e : Emotion) (hf : HFOutcome) :
    base_emotion (some e) hf = (e, 0.8) := by
  simp only [base_emotion]
  rw [if_neg]
  rintro ⟨-, h2⟩
  norm_num at h2

lemma base_emotion_of_failure (hf : HFOutcome) (hfail : hf.isFailure = true) :
    base_emotion none hf = (Emotion.neutral, 0.5) := by
  cases hf with
  | unavailable => simp [base_emotion]
  | failed => simp [base_emotion]
  | malformed => simp [base_emotion]
  | ok l c => exact absurd hfail (by simp [HFOutcome.isFailure])

lemma base_emotion_of_ok (l : String) (c : ℚ) :
    base_emotion none (.ok l c) = (map_hf_emotion l, min 0.95 (max 0.5 c)) := by
  simp only [base_emotion]
  rw [if_neg]
  rintro ⟨-, h2⟩
  have hge : (0.5 : ℚ) ≤ min 0.95 (max 0.5 c) := le_min (by norm_num) (le_max_left _ _)
  rw [h2] at hge
  norm_num at hge

lemma base_emotion_bounds (u : Option Emotion) (hf : HFOutcome) :
    (0.5 : ℚ) ≤ (base_emotion u hf).2 ∧ (base_emotion u hf).2 ≤ 0.95 := by
  rcases u with _ | e
  · cases hf with
    | ok l c =>
      rw [base_emotion_of_ok]
      exact ⟨le_min (by norm_num) (le_max_left _ _), min_le_left _ _⟩
    | unavailable =>
      rw [base_emotion_of_failure HFOutcome.unavailable rfl]
      constructor <;> norm_num
    | failed =>
      rw [base_emotion_of_failure HFOutcome.failed rfl]
      constructor <;> norm_num
    | malformed =>
      rw [base_emotion_of_failure HFOutcome.malformed rfl]
      constructor <;> norm_num
  · rw [base_emotion_of_unsupported]
    constructor <;> norm_num

/-- C2: for every per-request text behaviour and every model behaviour
(including failures), `analyze_sentiment` returns a result whose confidence
lies in [0, 1]; totality of the function is the never-throws guarantee. -/
theorem analyze_sentiment_confidence_bounds (search contains : String → Bool)
    (hf : HFOutcome) :
    0 ≤ (analyze_sentiment search contains hf).confidence
    ∧ (analyze_sentiment search contains hf).confidence ≤ 1 := by
  have hb := base_emotion_bounds (detect_unsupported_emotions search) hf
  rcases hpair : base_emotion (detect_unsupported_emotions search) hf with ⟨m, b⟩
  rw [hpair] at hb
  simp only at hb
  simp only [analyze_sentiment, hpair]
  split_ifs <;> (try dsimp only) <;> constructor
  · exact le_min (by norm_num) (by linarith [hb.1])
  · exact (min_le_left _ _).trans (by norm_num)
  · exact le_min (by norm_num) (by linarith [hb.1])
  · exact (min_le_left _ _).trans (by norm_num)
  · linarith [hb.1]
  · linarith [hb.2]

lemma sarcastic_ne_affectionate (e : Emotion) (t : String) :
    "sarcastic+" ++ e.name ≠ "affectionate+" ++ t := by
  intro hcon
  have hd := congrArg String.data hcon
  rw [String.data_append, String.data_append] at hd
  have h1 : ("sarcastic+").data = ['s', 'a', 'r', 'c', 'a', 's', 't', 'i', 'c', '+'] := rfl
  have h2 : ("affectionate+").data
      = ['a', 'f', 'f', 'e', 'c', 't', 'i', 'o', 'n', 'a', 't', 'e', '+'] := rfl
  rw [h1, h2] at hd
  simp only [List.cons_append] at hd
  injection hd with hh
  exact absurd hh (by decide)

/-- C3: whenever both the sarcasm detector and the affection detector fire
on a text, the final label is the sarcastic compound: the combo type is
`sarcastic`, the sentiment type is `sarcastic+<base emotion>`, and it is
never an `affectionate+` compound. -/
theorem sarcasm_precedence (search contains : String → Bool) (hf : HFOutcome)
    (hs : detect_advanced_sarcasm search contains = true)
    (ha : affectionate_patterns.any search = true) :
    (analyze_sentiment search contains hf).combo_type = some "sarcastic"
    ∧ (analyze_sentiment search contains hf).sentiment_type
        = "sarcastic+" ++ (base_emotion (detect_unsupported_emotions search) hf).1.name
    ∧ ∀ t, (analyze_sentiment search contains hf).sentiment_type
        ≠ "affectionate+" ++ t := by
  rcases hpair : base_emotion (detect_unsupported_emotions search) hf with ⟨m, b⟩
  simp only [analyze_sentiment, hpair, hs, if_true]
  try dsimp only
  refine ⟨?_, ?_, fun t => sarcastic_ne_affectionate m t⟩ <;> simp

/-- Witness for C3: with every regex matching (so both detectors fire) and
the model unavailable, the combo type is `sarcastic`. -/
theorem sarcasm_precedence_witness :
    (analyze_sentiment (fun _ => true) (fun _ => false)
        HFOutcome.unavailable).combo_type = some "sarcastic" :=
  (sarcasm_precedence (fun _ => true) (fun _ => false) HFOutcome.unavailable rfl rfl).1

/-- C4: with no unsupported-emotion pattern override, every classifier
failure (unavailable handle, raised prediction, malformed result) yields
the fixed base emotion `neutral` with the fixed confidence 0.5, and
`analyze_sentiment` still returns a plain result built from it. -/
theorem classifier_failure_fallback (search contains : String → Bool) (hf : HFOutcome)
    (hu : detect_unsupported_emotions search = none)
    (hfail : hf.isFailure = true) :
    base_emotion (detect_unsupported_emotions search) hf = (Emotion.neutral, 0.5)
    ∧ ((analyze_sentiment search contains hf).is_combo = false →
        (analyze_sentiment search contains hf).sentiment_type = "neutral"
        ∧ (analyze_sentiment search contains hf).confidence = 0.5) := by
  have hbase : base_emotion (detect_unsupported_emotions search) hf
      = (Emotion.neutral, 0.5) := by
    rw [hu]
    exact base_emotion_of_failure hf hfail
  refine ⟨hbase, ?_⟩
  simp only [analyze_sentiment, hbase]
  split_ifs <;> (try dsimp only)
  · exact fun hcon => by simp at hcon
  · exact fun hcon => by simp at hcon
  · exact fun _ => ⟨rfl, rfl⟩

/-- Witness for C4 at an all-false text oracle and an unavailable model. -/
theorem classifier_failure_fallback_witness :
    base_emotion (detect_unsupported_emotions (fun _ => false)) HFOutcome.unavailable
      = (Emotion.neutral, 0.5) :=
  (classifier_failure_fallback (fun _ => false) (fun _ => false)
    HFOutcome.unavailable rfl rfl).1

/-- C7: whenever the unsupported-emotion pattern check detects a category,
that category is one of angry/disgust/joy/confused/neutral, the Decision
Engine adopts it as the base emotion with the fixed pattern confidence 0.8,
and the final result does not depend on the primary classifier at all. -/
theorem unsupported_override_wins (search contains : String → Bool) (e : Emotion)
    (h : detect_unsupported_emotions search = some e) :
    (e = Emotion.angry ∨ e = Emotion.disgust ∨ e = Emotion.joy
      ∨ e = Emotion.confused ∨ e = Emotion.neutral)
    ∧ (∀ hf, base_emotion (detect_unsupported_emotions search) hf = (e, 0.8))
    ∧ (∀ hf hf2, analyze_sentiment search contains hf
        = analyze_sentiment search contains hf2) := by
  have hbase : ∀ hf, base_emotion (detect_unsupported_emotions search) hf = (e, 0.8) := by
    intro hf
    rw [h]
    exact base_emotion_of_unsupported e hf
  refine ⟨?_, hbase, fun hf hf2 => ?_⟩
  · unfold detect_unsupported_emotions at h
    split_ifs at h
    all_goals first
      | exact Option.noConfusion h
      | (injection h with hinj; subst hinj; simp)
  · simp only [analyze_sentiment, hbase hf, hbase hf2]

/-- Witness for C7: with every regex matching, the cascade detects `angry`
and the base emotion is `(angry, 0.8)` even though the model is down. -/
theorem unsupported_override_wins_witness :
    base_emotion (detect_unsupported_emotions (fun _ => true)) HFOutcome.unavailable
      = (Emotion.angry, 0.8) :=
  ((unsupported_override_wins (fun _ => true) (fun _ => false) Emotion.angry rfl).2.1)
    HFOutcome.unavailable

/-- C10: shape invariant of every classification result: a combo result has
combo type `sarcastic` or `affectionate`, its primary emotion is the base
emotion's name, its sentiment type is `combo_type + "+" + primary_emotion`,
and its confidence is `min 0.9 (base + 0.1) ≤ 0.9`; a non-combo result is
the bare base emotion name, `is_sarcastic = false`, at the base confidence. -/
theorem result_shape_invariant (search contains : String → Bool) (hf : HFOutcome) :
    ((analyze_sentiment search contains hf).is_combo = true →
        ((analyze_sentiment search contains hf).combo_type = some "sarcastic"
          ∨ (analyze_sentiment search contains hf).combo_type = some "affectionate")
        ∧ (analyze_sentiment search contains hf).primary_emotion
            = some ((base_emotion (detect_unsupported_emotions search) hf).1.name)
        ∧ (analyze_sentiment search contains hf).sentiment_type
            = ((analyze_sentiment search contains hf).combo_type.getD "") ++ "+"
              ++ ((analyze_sentiment search contains hf).primary_emotion.getD "")
        ∧ (analyze_sentiment search contains hf).confidence
            = min 0.9 ((base_emotion (detect_unsupported_emotions search) hf).2 + 0.1)
        ∧ (analyze_sentiment search contains hf).confidence ≤ 0.9)
    ∧ ((analyze_sentiment search contains hf).is_combo = false →
        (analyze_sentiment search contains hf).sentiment_type
            = (base_emotion (detect_unsupported_emotions search) hf).1.name
        ∧ (analyze_sentiment search contains hf).is_sarcastic = some false
        ∧ (analyze_sentiment search contains hf).confidence
            = (base_emotion (detect_unsupported_emotions search) hf).2) := by
  have hps : ("sarcastic" : String) ++ "+" = "sarcastic+" := by decide
  have hpa : ("affectionate" : String) ++ "+" = "affectionate+" := by decide
  rcases hpair : base_emotion (detect_unsupported_emotions search) hf with ⟨m, b⟩
  simp only [analyze_sentiment, hpair]
  split_ifs <;> (try dsimp only) <;> constructor
  · intro _
    refine ⟨Or.inl rfl, rfl, ?_, rfl, min_le_left _ _⟩
    simp only [Option.getD_some, ← String.append_assoc, hps]
  · exact fun hcon => by simp at hcon
  · intro _
    refine ⟨Or.inr rfl, rfl, ?_, rfl, min_le_left _ _⟩
    simp only [Option.getD_some, ← String.append_assoc, hpa]
  · exact fun hcon => by simp at hcon
  · exact fun hcon => by simp at hcon
  · exact fun _ => ⟨rfl, rfl, rfl⟩

/-- Witness for C10: a concrete combo result whose combo type is one of the
two modifiers. -/
theorem result_shape_invariant_witness :
    (analyze_sentiment (fun _ => true) (fun _ => false)
        HFOutcome.unavailable).combo_type = some "sarcastic"
    ∨ (analyze_sentiment (fun _ => true) (fun _ => false)
        HFOutcome.unavailable).combo_type = some "affectionate" :=
  ((result_shape_invariant (fun _ => true) (fun _ => false)
    HFOutcome.unavailable).1 rfl).1

/-! ## Claim theorems: empty input (C9)

On the empty string no regex pattern of sentiment_analyzer.py can match
(every pattern requires at least one character) and no word is a substring,
so the per-request oracles are the constantly-false functions. -/

/-- C9 counterexample: on the empty string, when the primary classifier is
available and returns label `joy` with confidence 0.9, `analyze_sentiment`
returns `joy` at confidence 0.9 — not the default neutral result: the code
has no empty-input special case. -/
theorem empty_input_counterexample :
    (analyze_sentiment (fun _ => false) (fun _ => false)
        (HFOutcome.ok "joy" 0.9)).sentiment_type = "joy"
    ∧ (analyze_sentiment (fun _ => false) (fun _ => false)
        (HFOutcome.ok "joy" 0.9)).sentiment_type ≠ "neutral"
    ∧ (analyze_sentiment (fun _ => false) (fun _ => false)
        (HFOutcome.ok "joy" 0.9)).confidence = 0.9 := by
  have hnone : detect_unsupported_emotions (fun _ => false) = none := rfl
  have hbase : base_emotion (detect_unsupported_emotions (fun _ => false))
      (HFOutcome.ok "joy" 0.9) = (Emotion.joy, 0.9) := by
    rw [hnone, base_emotion_of_ok]
    have h1 : map_hf_emotion "joy" = Emotion.joy := by decide
    have h2 : min (0.95 : ℚ) (max 0.5 0.9) = 0.9 := by norm_num
    rw [h1, h2]
  have hds : detect_advanced_sarcasm (fun _ => false) (fun _ => false) = false := rfl
  have hda : affectionate_patterns.any (fun _ => false) = false := rfl
  simp only [analyze_sentiment, hbase, hds, hda, Bool.false_eq_true, if_false]
  refine ⟨?_, ?_, ?_⟩ <;> first | rfl | trivial | decide

/-- C9 (amended): on the empty string neither classification nor moderation
raises; when the primary classifier is unavailable or fails, classification
returns the default neutral result at the fixed confidence 0.5, and when
the toxicity model is unavailable or fails, moderation returns
`is_blocked = false` with empty toxicity tags; when the models are up,
their outputs govern the result instead. -/
theorem empty_input_default (hf : HFOutcome) (hfail : hf.isFailure = true)
    (call : DetoxifyOutcome)
    (hc : call = DetoxifyOutcome.unavailable ∨ call = DetoxifyOutcome.failed) :
    analyze_sentiment (fun _ => false) (fun _ => false) hf
      = { sentiment_type := "neutral"
          confidence := 0.5
          is_sarcastic := some false
          is_affectionate := none
          is_combo := false
          primary_emotion := none
          combo_type := none }
    ∧ (moderate_content call).is_blocked = false
    ∧ (moderate_content call).toxicity_tags = [] := by
  have hnone : detect_unsupported_emotions (fun _ => false) = none := rfl
  have hbase : base_emotion (detect_unsupported_emotions (fun _ => false)) hf
      = (Emotion.neutral, 0.5) := by
    rw [hnone]
    exact base_emotion_of_failure hf hfail
  have hds : detect_advanced_sarcasm (fun _ => false) (fun _ => false) = false := rfl
  have hda : affectionate_patterns.any (fun _ => false) = false := rfl
  refine ⟨?_, ?_, ?_⟩
  · simp only [analyze_sentiment, hbase, hds, hda, Bool.false_eq_true, if_false]
    rfl
  · rcases hc with h | h <;> subst h <;> rfl
  · rcases hc with h | h <;> subst h <;> rfl

/-- Witness for the amended C9 with both models unavailable. -/
theorem empty_input_default_witness :
    analyze_sentiment (fun _ => false) (fun _ => false) HFOutcome.unavailable
      = { sentiment_type := "neutral"
          confidence := 0.5
          is_sarcastic := some false
          is_affectionate := none
          is_combo := false
          primary_emotion := none
          combo_type := none } :=
  (empty_input_default HFOutcome.unavailable rfl
    DetoxifyOutcome.unavailable (Or.inl rfl)).1

/-! ## Claim theorems: pattern scorer (C8) -/

/-- C8 counterexample: on the repository's own `happy` pattern set of
enhanced_sentiment_analysis.py, the text `"so happy!!"` (one weighted
primary match, both booster patterns matching) is boosted by factor 2.0 —
not by a single fixed factor in 1.2–1.5; and on the `sad` pattern set of
custom_sentiment_analysis.py, the text `"sad sad sad sad"` scores 6.0,
exceeding the claimed 5.0 cap (that scorer never caps). -/
theorem pattern_score_counterexample :
    calculate_pattern_score so_happy_count (fun _ => true) enhanced_happy_patterns = 2
    ∧ weighted_match_score so_happy_count enhanced_happy_patterns = 1
    ∧ ¬ ((2 : ℚ) ≤ 1 * 1.5)
    ∧ calculate_pattern_score_custom sad_four_count (fun _ => true)
        custom_sad_patterns = 6
    ∧ ¬ ((6 : ℚ) ≤ 5.0) := by
  have e1 : so_happy_count "\\b(happy|joy|joyful|delighted|cheerful|glad|pleased)\\b" = 1 := rfl
  have e2 : so_happy_count
      "\\b(amazing|awesome|fantastic|wonderful|great|excellent|brilliant)\\b" = 0 := rfl
  have e3 : so_happy_count "\\b(love|adore|loving|perfect|incredible|outstanding)\\b" = 0 := rfl
  have e4 : so_happy_count "\\b(good|nice|fine|okay|pleasant|positive|upbeat)\\b" = 0 := rfl
  have e5 : so_happy_count "\\b(smile|smiling|grin|laugh|laughter)\\b" = 0 := rfl
  have e6 : so_happy_count "(😊|😄|🎉|😍|🥰|😎|👍|😀|😁|😂|❤️|💖|✨)" = 0 := rfl
  have hw : weighted_match_score so_happy_count enhanced_happy_patterns = 1 := by
    simp only [weighted_match_score, enhanced_happy_patterns, List.map_cons, List.map_nil,
      List.sum_cons, List.sum_nil]
    rw [e1, e2, e3, e4, e5, e6]
    norm_num
  have hlen2 : (enhanced_happy_patterns.boosters.filter fun _ => true).length = 2 := rfl
  have s1 : sad_four_count "\\b(sad|depressed|miserable|heartbroken|devastated)\\b" = 4 := rfl
  have s2 : sad_four_count "\\b(crying|tears|weeping|sobbing)\\b" = 0 := rfl
  have s3 : sad_four_count "\\b(lonely|empty|hopeless|despair)\\b" = 0 := rfl
  have s4 : sad_four_count "\\b(down|blue|gloomy|melancholy)\\b" = 0 := rfl
  have s5 : sad_four_count "\\b(sorry|regret|disappointed)\\b" = 0 := rfl
  have s6 : sad_four_count "😢|😭|💔|😔" = 0 := rfl
  have hwc : weighted_match_score_custom sad_four_count custom_sad_patterns = 6 := by
    simp only [weighted_match_score_custom, custom_sad_patterns, List.map_cons, List.map_nil,
      List.sum_cons, List.sum_nil]
    rw [s1, s2, s3, s4, s5, s6]
    norm_num
  have hlen0 : (custom_sad_patterns.boosters.filter fun _ => true).length = 0 := rfl
  refine ⟨?_, hw, by norm_num, ?_, by norm_num⟩
  · calc calculate_pattern_score so_happy_count (fun _ => true) enhanced_happy_patterns
        = min (weighted_match_score so_happy_count enhanced_happy_patterns
            * ((1.0 : ℚ) + 0.5
              * ((enhanced_happy_patterns.boosters.filter fun _ => true).length : ℚ))) 5.0 :=
          rfl
      _ = 2 := by
          rw [hw, hlen2]
          norm_num
  · calc calculate_pattern_score_custom sad_four_count (fun _ => true) custom_sad_patterns
        = weighted_match_score_custom sad_four_count custom_sad_patterns
            * (1.3 : ℚ) ^ (custom_sad_patterns.boosters.filter fun _ => true).length :=
          rfl
      _ = 6 := by
          rw [hwc, hlen0]
          norm_num

/-- C8 (amended): both revisions compute the weighted primary/secondary
match count; the enhanced scorer multiplies it by `1 + 0.5 × k` where `k`
is the number of matching booster patterns (a single matching booster gives
the fixed factor 1.5, within 1.2–1.5) and caps the result at 5.0; the
custom scorer multiplies by 1.3 for each matching booster and applies no
cap. -/
theorem pattern_score_amended (findCount : String → Nat) (search : String → Bool)
    (patterns : PatternSet) :
    calculate_pattern_score findCount search patterns
      = min (weighted_match_score findCount patterns
          * ((1.0 : ℚ) + 0.5 * ((patterns.boosters.filter search).length : ℚ))) 5.0
    ∧ calculate_pattern_score findCount search patterns ≤ 5
    ∧ ((patterns.boosters.filter search).length = 1 →
        calculate_pattern_score findCount search patterns
          = min (weighted_match_score findCount patterns * 1.5) 5.0)
    ∧ calculate_pattern_score_custom findCount search patterns
      = weighted_match_score_custom findCount patterns
          * (1.3 : ℚ) ^ (patterns.boosters.filter search).length := by
  refine ⟨rfl, ?_, ?_, rfl⟩
  · unfold calculate_pattern_score
    exact (min_le_right _ _).trans (by norm_num)
  · intro hone
    have hmul : (1.0 : ℚ) + 0.5 * ((patterns.boosters.filter search).length : ℚ)
        = 1.5 := by
      rw [hone]
      norm_num
    calc calculate_pattern_score findCount search patterns
        = min (weighted_match_score findCount patterns
            * ((1.0 : ℚ) + 0.5 * ((patterns.boosters.filter search).length : ℚ))) 5.0 :=
          rfl
      _ = min (weighted_match_score findCount patterns * 1.5) 5.0 := by rw [hmul]

/-- Witness for the amended C8: on the enhanced `happy` pattern set with a
search oracle matching exactly the word-booster (the text `"so happy"`),
the factor is exactly 1.5. -/
theorem pattern_score_amended_witness :
    calculate_pattern_score so_happy_count
        (fun p => decide (p = "(so|very|really|extremely|super|incredibly)"))
        enhanced_happy_patterns
      = min (weighted_match_score so_happy_count enhanced_happy_patterns * 1.5) 5.0 :=
  (pattern_score_amended so_happy_count
    (fun p => decide (p = "(so|very|really|extremely|super|incredibly)"))
    enhanced_happy_patterns).2.2.1 rfl

end SocialVibe
